import Mathlib

/-!
Formal model of the calibration → gating → stability → smoothing → lock →
classification pipeline of `src/frontend/src/pages/Measure.jsx`, and of the
backend size estimator of `src/backend/routes/ml.js`.

Modelling conventions:
* JavaScript numbers are modelled as real numbers (`ℝ`).  The source measures
  normalized pose distances with `Math.hypot`, i.e. Euclidean norms, whose
  exact values are irrational in general, so the scalar type has to be `ℝ`
  (the development is `noncomputable`; concrete evaluations are done with
  `norm_num` / `simp`).
* JavaScript `undefined` / `null` are modelled with `Option`; the truthiness
  test that the source applies to numbers (`undefined`, `null`, `0`, `NaN`
  are falsy) is modelled by `truthyR`.
* Canvas drawing, React rendering and camera start/stop have no effect on the
  session data and are omitted; every state-bearing statement of the source
  (`setPhase`, `setStatus`, `setCmPerPx`, `setMeas`, `setLocked`, and each
  buffer mutation) is modelled.
-/

noncomputable section

open Classical

/-- The session phase, `useState("calibrate")` in `Measure.jsx`
(`'calibrate' | 'measure' | 'locked'`, plus `'error'` set in the
initialization catch handler). -/
inductive Phase where
  | calibrate
  | measure
  | locked
  | error
deriving DecidableEq

/-- One MediaPipe pose landmark: normalized coordinates plus an optional
visibility confidence (the source reads it as `lm[i]?.visibility ?? 0`). -/
structure Landmark where
  x : ℝ
  y : ℝ
  visibility : Option ℝ

/-- One `onResults` payload: the frame's pixel size and the (possibly absent)
landmark array `res.poseLandmarks`, indexed by joint number. -/
structure Frame where
  width : ℝ
  height : ℝ
  poseLandmarks : Option (ℕ → Option Landmark)

/-- The frozen measurement record built at lock time
(`{ chestCm, shoulderCm, upperWaistCm, quality: { frames, spreadCm } }`). -/
structure LockedMeasurement where
  chestCm : ℝ
  shoulderCm : ℝ
  upperWaistCm : Option ℝ
  qualityFrames : ℕ
  qualitySpreadCm : ℝ

/-- The mutable session state of the `Measure` component: the `useState`
cells (`phase`, `status`, `barPx`, `cmPerPx`, `locked`, `meas`) and the four
`useRef` sliding windows. -/
structure SessionState where
  phase : Phase
  status : String
  barPx : ℝ
  cmPerPx : Option ℝ
  locked : Bool
  meas : Option LockedMeasurement
  recentShoulderN : List ℝ
  chestBuf : List ℝ
  shoulderBuf : List ℝ
  waistBuf : List ℝ

/-- `const A4_WIDTH_CM = 21.0` — physical reference width. -/
def A4_WIDTH_CM : ℝ := 21

/-- `const CHEST_MULTIPLIER = 1.75` — shoulder flat width → chest circumference. -/
def CHEST_MULTIPLIER : ℝ := 1.75

/-- `const UPPER_WAIST_FACTOR = 0.90`. -/
def UPPER_WAIST_FACTOR : ℝ := 0.90

/-- `const GUIDE_MARGIN = 0.08`. -/
def GUIDE_MARGIN : ℝ := 0.08

/-- `const STABILITY_FRAMES = 12` — capacity of the stability window. -/
def STABILITY_FRAMES : ℕ := 12

/-- `const MOVEMENT_EPS = 0.015` — stability tolerance. -/
def MOVEMENT_EPS : ℝ := 0.015

/-- JavaScript truthiness of an optional number: `undefined`, `null` and `0`
are falsy, every other number is truthy. -/
def truthyR (o : Option ℝ) : Prop :=
  match o with
  | none => False
  | some q => q ≠ 0

/-- JavaScript `x <= 0` on an optional number: comparing `undefined` with a
number yields `false`, so the test holds only for a present value `≤ 0`. -/
def leZero (o : Option ℝ) : Prop :=
  match o with
  | none => False
  | some q => q ≤ 0

/-- The shared guard of both size classifiers:
`!chestCm || !waistCm || !shoulderCm || chestCm <= 0 || waistCm <= 0 || shoulderCm <= 0`. -/
def sizeGuardFails (chestCm waistCm shoulderCm : Option ℝ) : Prop :=
  ¬ truthyR chestCm ∨ ¬ truthyR waistCm ∨ ¬ truthyR shoulderCm ∨
    leZero chestCm ∨ leZero waistCm ∨ leZero shoulderCm

/-- `recommendTopSize (chestCm, waistCm, shoulderCm)` of `Measure.jsx`
(lines 44–94): guard, then the additive L/XL scoring bands, then
`xlScore > lScore ? 'XL' : 'L'`.  The per-metric `if/else if` chains are
rendered as nested conditionals producing the `(lScore, xlScore)`
contribution of that metric. -/
def recommendTopSize (chestCm waistCm shoulderCm : Option ℝ) : Option String :=
  if sizeGuardFails chestCm waistCm shoulderCm then none
  else
    let chest := chestCm.getD 0
    let waist := waistCm.getD 0
    let shoulder := shoulderCm.getD 0
    let chestScores : ℕ × ℕ :=
      if chest ≥ 100 then (0, 3)
      else if chest ≥ 95 then (0, 2)
      else if chest ≥ 90 then (0, 1)
      else if chest ≥ 85 then (2, 0)
      else if chest ≥ 80 then (1, 0)
      else (0, 0)
    let shoulderScores : ℕ × ℕ :=
      if shoulder ≥ 48 then (0, 2)
      else if shoulder ≥ 45 then (0, 1)
      else if shoulder ≥ 42 then (2, 0)
      else if shoulder ≥ 38 then (1, 0)
      else (0, 0)
    let waistScores : ℕ × ℕ :=
      if waist ≥ 85 then (0, 2)
      else if waist ≥ 80 then (0, 1)
      else if waist ≥ 75 then (2, 0)
      else if waist ≥ 70 then (1, 0)
      else (0, 0)
    let lScore := chestScores.1 + shoulderScores.1 + waistScores.1
    let xlScore := chestScores.2 + shoulderScores.2 + waistScores.2
    if xlScore > lScore then some "XL" else some "L"

/-- The `measurements` object read by the backend estimator: it accesses the
fields `chestCm`, `upperWaistCm`, `waistCm` and `shoulderCm`. -/
structure MLMeasurements where
  chestCm : Option ℝ
  upperWaistCm : Option ℝ
  waistCm : Option ℝ
  shoulderCm : Option ℝ

/-- JavaScript `a || b` on optional numbers: `a` if truthy, else `b`. -/
def jsOr (a b : Option ℝ) : Option ℝ :=
  if truthyR a then a else b

/-- The ordered size enumeration of the backend estimator. -/
def sizeOrder : List String :=
  ["XXS", "XS", "S", "M", "L", "XL", "XXL", "3XL", "4XL"]

/-- `estimateSizeFromMeasurements` of `src/backend/routes/ml.js`
(lines 162–229): guard with default fallback `'M'`, primary size from chest
bands, ±1 adjustments from the waist/chest and shoulder/chest ratios, and a
clamped lookup in `sizeOrder`. -/
def estimateSizeFromMeasurements (m : MLMeasurements) : String :=
  let chestO := m.chestCm
  let waistO := jsOr m.upperWaistCm m.waistCm
  let shoulderO := m.shoulderCm
  if sizeGuardFails chestO waistO shoulderO then "M"
  else
    let chest := chestO.getD 0
    let waist := waistO.getD 0
    let shoulder := shoulderO.getD 0
    let primarySize : String :=
      if chest < 80 then "XXS"
      else if chest < 85 then "XS"
      else if chest < 90 then "S"
      else if chest < 95 then "M"
      else if chest < 100 then "L"
      else if chest < 105 then "XL"
      else if chest < 110 then "XXL"
      else if chest < 115 then "3XL"
      else "4XL"
    let waistChestRatio := waist / chest
    let waistAdjustment : ℤ :=
      if waistChestRatio < 0.80 then -1
      else if waistChestRatio > 0.90 then 1
      else 0
    let shoulderChestRatio := shoulder / chest
    let sizeAdjustment : ℤ :=
      waistAdjustment +
        (if shoulderChestRatio > 0.60 then 1
         else if shoulderChestRatio < 0.50 then -1
         else 0)
    let currentIndex : ℤ := sizeOrder.indexOf primarySize
    let adjustedIndex : ℤ :=
      max 0 (min ((sizeOrder.length : ℤ) - 1) (currentIndex + sizeAdjustment))
    -- `sizeOrder[adjustedIndex]`; the index is clamped into range, so the
    -- `getD` default is never used.
    sizeOrder.getD adjustedIndex.toNat "M"

/-- `getDistance = (a,b) => Math.hypot(a.x-b.x, a.y-b.y)` on plain
`{x, y}` points. -/
def getDistance (a b : ℝ × ℝ) : ℝ :=
  Real.sqrt ((a.1 - b.1) ^ 2 + (a.2 - b.2) ^ 2)

/-- The `{x, y}` point of a landmark. -/
def Landmark.pt (l : Landmark) : ℝ × ℝ := (l.x, l.y)

/-- `shMid = { x:(Lsh.x+Rsh.x)/2, y:(Lsh.y+Rsh.y)/2 }`. -/
def shMidOf (Lsh Rsh : Landmark) : ℝ × ℝ :=
  ((Lsh.x + Rsh.x) / 2, (Lsh.y + Rsh.y) / 2)

/-- `lm[i]?.visibility ?? 0`. -/
def visOf (o : Option Landmark) : ℝ :=
  match o with
  | none => 0
  | some l => l.visibility.getD 0

/-- `const vis = (i) => (lm[i]?.visibility ?? 0) > 0.45`. -/
def visP (lm : ℕ → Option Landmark) (i : ℕ) : Prop :=
  visOf (lm i) > 0.45

/-- The guide-box membership test of line 338: every listed point must lie in
the margin-inset rectangle (`gx = W*GUIDE_MARGIN`, `gW = W*(1-GUIDE_MARGIN*2)`,
same for `y`). -/
def insideGuide (W H : ℝ) (ps : List (ℝ × ℝ)) : Prop :=
  ∀ p ∈ ps,
    p.1 * W ≥ W * GUIDE_MARGIN ∧
    p.1 * W ≤ W * GUIDE_MARGIN + W * (1 - GUIDE_MARGIN * 2) ∧
    p.2 * H ≥ H * GUIDE_MARGIN ∧
    p.2 * H ≤ H * GUIDE_MARGIN + H * (1 - GUIDE_MARGIN * 2)

/-- The FIFO push shared by every sliding window of the source:
`buf.push(val); if (buf.length > n) buf.shift();` (no push when the sample is
`null`). -/
def pushWindow (buf : List ℝ) (val : Option ℝ) (n : ℕ) : List ℝ :=
  match val with
  | none => buf
  | some v =>
      let b := buf ++ [v]
      if n < b.length then b.tail else b

/-- The median of a window as the source computes it: sort a copy
(`[...ref.current].sort((a,b)=>a-b)`, rendered as an insertion sort — for a
numeric comparator any correct sort yields the same list), take the middle
element if the length is odd, else the mean of the two middle elements.
The `getD` defaults are only reachable for an empty window, which no call
site produces (the window has just been pushed to). -/
def medVal (l : List ℝ) : ℝ :=
  let s := l.insertionSort (· ≤ ·)
  let m := l.length / 2
  if l.length % 2 = 1 then s.getD m 0
  else (s.getD (m - 1) 0 + s.getD m 0) / 2

/-- `pushMed(ref, val, n=15)` of lines 367–374: mutate the window and return
the median of the updated window (`null` input pushes nothing and returns
`null`).  The first component is the updated window, the second the return
value. -/
def pushMed (buf : List ℝ) (val : Option ℝ) (n : ℕ) : List ℝ × Option ℝ :=
  match val with
  | none => (buf, none)
  | some v =>
      let b := pushWindow buf (some v) n
      (b, some (medVal b))

/-- `Math.max(...)` over a list; every call site passes a nonempty list, so
the `[]` branch is dead code. -/
def listMax : List ℝ → ℝ
  | [] => 0
  | x :: xs => xs.foldl max x

/-- `Math.min(...)` over a list; every call site passes a nonempty list. -/
def listMin : List ℝ → ℝ
  | [] => 0
  | x :: xs => xs.foldl min x

/-- `const avg = bufN.reduce((a,b)=>a+b,0)/bufN.length` (the call site has a
nonempty window, it was just pushed to). -/
def avgOf (l : List ℝ) : ℝ := l.sum / l.length

/-- `const maxDev = Math.max(...bufN.map(v=>Math.abs(v-avg)))`. -/
def maxDevOf (l : List ℝ) : ℝ :=
  listMax (l.map fun v => |v - avgOf l|)

/-- `const spread = chestBuf.current.length>=8 ?
Math.max(...chestBuf.current)-Math.min(...chestBuf.current) : 999`. -/
def spreadOf (chest : List ℝ) : ℝ :=
  if 8 ≤ chest.length then listMax chest - listMin chest else 999

/-- `const shoulderPx = Math.abs((Lsh.x - Rsh.x) * W)`. -/
def shoulderPxOf (W : ℝ) (Lsh Rsh : Landmark) : ℝ :=
  |(Lsh.x - Rsh.x) * W|

/-- `const shoulderCm = shoulderPx * cmPerPx`. -/
def shoulderCmOf (W : ℝ) (Lsh Rsh : Landmark) (c : ℝ) : ℝ :=
  shoulderPxOf W Lsh Rsh * c

/-- Lines 360–364: the instantaneous upper-waist sample, present only when
both hip landmarks pass the visibility test:
`Math.abs((Lhip.x - Rhip.x) * W) * cmPerPx * UPPER_WAIST_FACTOR`. -/
def waistInstantOf (W : ℝ) (lm : ℕ → Option Landmark) (c : ℝ) : Option ℝ :=
  match lm 23, lm 24 with
  | some Lhip, some Rhip =>
      if visP lm 23 ∧ visP lm 24 then
        some (|(Lhip.x - Rhip.x) * W| * c * UPPER_WAIST_FACTOR)
      else none
  | _, _ => none

/-- `Number(x.toFixed(1))`: round to one decimal (ECMAScript `toFixed` picks
the larger candidate on ties, which is `round`). -/
def round1 (x : ℝ) : ℝ := (round (x * 10) : ℤ) / 10

/-- `Number(x.toFixed(2))`: round to two decimals. -/
def round2 (x : ℝ) : ℝ := (round (x * 100) : ℤ) / 100

/-- `upperWaistCm: waistMed ? Number(waistMed.toFixed(1)) : undefined` —
JS truthiness again: a `null` or zero median leaves the field absent. -/
def waistLockField (waistMed : Option ℝ) : Option ℝ :=
  match waistMed with
  | none => none
  | some w => if w = 0 then none else some (round1 w)

/-- Lines 349–397 of `pose.onResults`, from the stability push onward (all
gates already passed; `c` is the calibration factor).  Pushes the stability
sample and the three measurement samples, computes medians, spread and the
stability predicate, and either locks (freezing the rounded medians and
quality diagnostics, setting `locked`/`phase`/`status`) or reports
`"Hold still…"`. -/
def measureStep (W : ℝ) (lm : ℕ → Option Landmark) (Lsh Rsh : Landmark)
    (s : SessionState) (c : ℝ) : SessionState :=
  let shoulderWidthN := getDistance Lsh.pt Rsh.pt
  let bufN := pushWindow s.recentShoulderN (some shoulderWidthN) STABILITY_FRAMES
  let maxDev := maxDevOf bufN
  let shoulderCm := shoulderCmOf W Lsh Rsh c
  let chestCmInstant := shoulderCm * CHEST_MULTIPLIER
  let upperWaistCmInstant := waistInstantOf W lm c
  let chestP := pushMed s.chestBuf (some chestCmInstant) 15
  let shoulderP := pushMed s.shoulderBuf (some shoulderCm) 15
  let waistP := pushMed s.waistBuf upperWaistCmInstant 15
  let spread := spreadOf chestP.1
  let stable :=
    STABILITY_FRAMES ≤ bufN.length ∧ maxDev < MOVEMENT_EPS ∧ spread < 1.8
  if stable ∧ truthyR chestP.2 ∧ truthyR shoulderP.2 then
    { s with
        meas := some
          { chestCm := round1 (chestP.2.getD 0)
            shoulderCm := round1 (shoulderP.2.getD 0)
            upperWaistCm := waistLockField waistP.2
            qualityFrames := chestP.1.length
            qualitySpreadCm := round2 spread }
        locked := true
        phase := .locked
        status := "Locked ✔️"
        recentShoulderN := bufN
        chestBuf := chestP.1
        shoulderBuf := shoulderP.1
        waistBuf := waistP.1 }
  else
    { s with
        status := "Hold still…"
        recentShoulderN := bufN
        chestBuf := chestP.1
        shoulderBuf := shoulderP.1
        waistBuf := waistP.1 }

/-- Lines 304–347 of `pose.onResults`: guide-box check, calibrate-phase and
missing-calibration early exits, torso-degeneracy guard, then `measureStep`. -/
def processBody (W H : ℝ) (lm : ℕ → Option Landmark) (Lsh Rsh hip : Landmark)
    (s : SessionState) : SessionState :=
  if ¬ insideGuide W H [Lsh.pt, Rsh.pt, hip.pt] then
    { s with status := "Step back/center inside the frame." }
  else if s.phase = .calibrate then
    { s with status := "Adjust bar → Set calibration." }
  else if ¬ truthyR s.cmPerPx then
    { s with status := "Click Set calibration first." }
  else
    let c := s.cmPerPx.getD 0
    let torsoHeightN := getDistance (shMidOf Lsh Rsh) hip.pt
    if torsoHeightN ≤ 0 then { s with status := "Hold still…" }
    else measureStep W lm Lsh Rsh s c

/-- Lines 299–306 of `pose.onResults`: the landmark gate
(`shouldersOK && hipsOK`) and the resolution of `Lsh`, `Rsh` and
`hip = vis(23) ? Lhip : Rhip`.  The visibility test implies the landmark is
present, so the second fall-through branch is dead code. -/
def gateAndProcess (W H : ℝ) (lm : ℕ → Option Landmark)
    (s : SessionState) : SessionState :=
  if ¬ (visP lm 11 ∧ visP lm 12 ∧ (visP lm 23 ∨ visP lm 24)) then
    { s with status := "Show shoulders & upper torso." }
  else
    match lm 11, lm 12, (if visP lm 23 then lm 23 else lm 24) with
    | some Lsh, some Rsh, some hip => processBody W H lm Lsh Rsh hip s
    | _, _, _ => { s with status := "Show shoulders & upper torso." }

/-- The whole `pose.onResults` callback (lines 241–400) as a state
transformer: the `locked` early return, the missing-landmarks status, and the
gated processing chain. -/
def onResults (res : Frame) (s : SessionState) : SessionState :=
  if s.locked then s
  else
    match res.poseLandmarks with
    | none => { s with status := "Detecting body…" }
    | some lm => gateAndProcess res.width res.height lm s

/-- The `setCalibration` handler (lines 411–418): refuse below 40px,
otherwise set `cmPerPx = A4_WIDTH_CM / barPx`, advance to `measure` and clear
every window. -/
def setCalibration (s : SessionState) : SessionState :=
  if s.barPx < 40 then s
  else
    { s with
        cmPerPx := some (A4_WIDTH_CM / s.barPx)
        phase := .measure
        status := "Calibration set. Stand centered; shoulders & upper torso visible."
        chestBuf := []
        shoulderBuf := []
        waistBuf := []
        recentShoulderN := [] }

/-- The `retake` handler (lines 420–425). -/
def retake (s : SessionState) : SessionState :=
  { s with
      locked := false
      meas := none
      phase := .measure
      status := "Stand centered; hold still 1–2 seconds."
      chestBuf := []
      shoulderBuf := []
      waistBuf := []
      recentShoulderN := [] }

/-- The `recalibrate` handler (lines 427–432).  Note: it does not touch
`cmPerPx`. -/
def recalibrate (s : SessionState) : SessionState :=
  { s with
      locked := false
      meas := none
      phase := .calibrate
      status := "Hold an A4 sheet at chest level and match the bar width."
      chestBuf := []
      shoulderBuf := []
      waistBuf := []
      recentShoulderN := [] }

/-- The calibration-bar slider (`onChange={(e)=>setBarPx(...)}`). -/
def setBarPx (v : ℝ) (s : SessionState) : SessionState :=
  { s with barPx := v }

/-- The initial component state: `phase = 'calibrate'`, `barPx = 300`,
`cmPerPx = null`, `locked = false`, `meas = null`, all windows empty. -/
def initialState : SessionState :=
  { phase := .calibrate
    status := "Hold an A4 sheet at chest level and match the bar width."
    barPx := 300
    cmPerPx := none
    locked := false
    meas := none
    recentShoulderN := []
    chestBuf := []
    shoulderBuf := []
    waistBuf := [] }

/-- The session states reachable from the initial state.  Operator controls
are available exactly where the UI renders them: the calibration slider and
the Set Calibration button only in the `calibrate` phase, Retake and
Recalibrate only on the locked results panel (`phase === "locked" && meas`);
frames may arrive at any time. -/
inductive Reachable : SessionState → Prop where
  | init : Reachable initialState
  | bar (s : SessionState) (v : ℝ) : Reachable s → s.phase = .calibrate →
      Reachable (setBarPx v s)
  | calib (s : SessionState) : Reachable s → s.phase = .calibrate →
      Reachable (setCalibration s)
  | retakeOp (s : SessionState) : Reachable s → s.phase = .locked →
      s.meas.isSome → Reachable (retake s)
  | recalOp (s : SessionState) : Reachable s → s.phase = .locked →
      s.meas.isSome → Reachable (recalibrate s)
  | frame (s : SessionState) (f : Frame) : Reachable s →
      Reachable (onResults f s)

/-! ### Helper lemmas about the window primitives -/

lemma foldl_max_replicate (n : ℕ) (x : ℝ) :
    List.foldl max x (List.replicate n x) = x := by
  induction n with
  | zero => rfl
  | succ k ih => rw [List.replicate_succ, List.foldl_cons, max_self]; exact ih

lemma foldl_min_replicate (n : ℕ) (x : ℝ) :
    List.foldl min x (List.replicate n x) = x := by
  induction n with
  | zero => rfl
  | succ k ih => rw [List.replicate_succ, List.foldl_cons, min_self]; exact ih

lemma listMax_replicate (n : ℕ) (x : ℝ) :
    listMax (List.replicate (n + 1) x) = x := by
  rw [List.replicate_succ]
  simpa only [listMax] using foldl_max_replicate n x

lemma listMin_replicate (n : ℕ) (x : ℝ) :
    listMin (List.replicate (n + 1) x) = x := by
  rw [List.replicate_succ]
  simpa only [listMin] using foldl_min_replicate n x

lemma avgOf_replicate (n : ℕ) (x : ℝ) :
    avgOf (List.replicate (n + 1) x) = x := by
  rw [avgOf, List.sum_replicate, List.length_replicate, nsmul_eq_mul]
  exact mul_div_cancel_left₀ x (Nat.cast_ne_zero.mpr (Nat.succ_ne_zero n))

lemma maxDevOf_replicate (n : ℕ) (x : ℝ) :
    maxDevOf (List.replicate (n + 1) x) = 0 := by
  rw [maxDevOf]
  simp only [avgOf_replicate, List.map_replicate, sub_self, abs_zero]
  exact listMax_replicate n 0

lemma sorted_replicate (n : ℕ) (x : ℝ) :
    List.Sorted (· ≤ ·) (List.replicate n x) := by
  induction n with
  | zero => exact List.sorted_nil
  | succ k ih =>
    rw [List.replicate_succ, List.sorted_cons]
    exact ⟨fun b hb => le_of_eq (List.eq_of_mem_replicate hb).symm, ih⟩

lemma getD_replicate_of_lt (n i : ℕ) (x d : ℝ) (h : i < n) :
    (List.replicate n x).getD i d = x := by
  rw [List.getD_eq_getElem _ _ (by simpa using h)]
  simp

lemma medVal_replicate (n : ℕ) (x : ℝ) :
    medVal (List.replicate (n + 1) x) = x := by
  have hs : List.insertionSort (· ≤ ·) (List.replicate (n + 1) x) =
      List.replicate (n + 1) x :=
    (sorted_replicate (n + 1) x).insertionSort_eq
  simp only [medVal, hs, List.length_replicate]
  by_cases hpar : (n + 1) % 2 = 1
  · rw [if_pos hpar,
      getD_replicate_of_lt _ _ _ _ (Nat.div_lt_self (Nat.succ_pos n) one_lt_two)]
  · rw [if_neg hpar,
      getD_replicate_of_lt _ _ _ _
        (lt_of_le_of_lt (Nat.sub_le _ _) (Nat.div_lt_self (Nat.succ_pos n) one_lt_two)),
      getD_replicate_of_lt _ _ _ _ (Nat.div_lt_self (Nat.succ_pos n) one_lt_two)]
    ring

lemma pushWindow_replicate (k n : ℕ) (x : ℝ) (h : k + 1 ≤ n) :
    pushWindow (List.replicate k x) (some x) n = List.replicate (k + 1) x := by
  simp only [pushWindow, ← List.replicate_succ', List.length_replicate]
  rw [if_neg (by omega)]

lemma pushWindow_replicate_shift (n : ℕ) (x : ℝ) :
    pushWindow (List.replicate n x) (some x) n = List.replicate n x := by
  simp only [pushWindow, ← List.replicate_succ', List.length_replicate]
  rw [if_pos (by omega), List.replicate_succ, List.tail_cons]

lemma getDistance_eval (a b : ℝ × ℝ) (q : ℝ) (hq : 0 ≤ q)
    (h : (a.1 - b.1) ^ 2 + (a.2 - b.2) ^ 2 = q ^ 2) : getDistance a b = q := by
  rw [getDistance, h, Real.sqrt_sq hq]

lemma getDistance_pos (a b : ℝ × ℝ) (h : a.1 ≠ b.1 ∨ a.2 ≠ b.2) :
    0 < getDistance a b := by
  rw [getDistance]
  apply Real.sqrt_pos.mpr
  rcases h with h | h
  · exact add_pos_of_pos_of_nonneg (sq_pos_of_ne_zero (sub_ne_zero.mpr h)) (sq_nonneg _)
  · exact add_pos_of_nonneg_of_pos (sq_nonneg _) (sq_pos_of_ne_zero (sub_ne_zero.mpr h))

lemma round_eval (x : ℝ) (n : ℤ) (h1 : (n : ℝ) ≤ x + 1 / 2) (h2 : x + 1 / 2 < n + 1) :
    round x = n := by
  rw [round_eq]
  exact Int.floor_eq_iff.mpr ⟨h1, h2⟩

lemma round1_int (z : ℤ) : round1 ((z : ℝ)) = z := by
  rw [round1, show ((z : ℝ) * 10) = ((z * 10 : ℤ) : ℝ) by push_cast; ring, round_intCast]
  push_cast
  ring

lemma round2_zero : round2 0 = 0 := by
  rw [round2]
  norm_num

lemma round1_49049 : round1 ((49049 : ℝ) / 1000) = 49 := by
  rw [round1, show ((49049 : ℝ) / 1000 * 10) = 49049 / 100 by norm_num,
    round_eval ((49049 : ℝ) / 100) 490 (by norm_num) (by norm_num)]
  norm_num

lemma round1_28028 : round1 ((7007 : ℝ) / 250) = 28 := by
  rw [round1, show ((7007 : ℝ) / 250 * 10) = 7007 / 25 by norm_num,
    round_eval ((7007 : ℝ) / 25) 280 (by norm_num) (by norm_num)]
  norm_num

/-! ### Structural lemmas about one `onResults` pass -/

/-- All gates of one `onResults` pass succeed for frame `f` in state `s`:
the callback is live (`!locked`), landmarks are present, the shoulder/hip
visibility gate passes with the named landmarks, the three key points lie in
the guide box, the phase is `measure` with a truthy calibration factor `c`,
and the normalized torso height is positive.  Under these conditions control
reaches the measurement pushes of lines 349 ff. -/
def MainPath (f : Frame) (s : SessionState) (lm : ℕ → Option Landmark)
    (Lsh Rsh hip : Landmark) (c : ℝ) : Prop :=
  s.locked = false ∧
  f.poseLandmarks = some lm ∧
  lm 11 = some Lsh ∧ lm 12 = some Rsh ∧
  visP lm 11 ∧ visP lm 12 ∧ (visP lm 23 ∨ visP lm 24) ∧
  (if visP lm 23 then lm 23 else lm 24) = some hip ∧
  insideGuide f.width f.height [Lsh.pt, Rsh.pt, hip.pt] ∧
  s.phase = .measure ∧
  s.cmPerPx = some c ∧ c ≠ 0 ∧
  0 < getDistance (shMidOf Lsh Rsh) hip.pt

lemma onResults_measure (f : Frame) (s : SessionState)
    (lm : ℕ → Option Landmark) (Lsh Rsh hip : Landmark) (c : ℝ)
    (h : MainPath f s lm Lsh Rsh hip c) :
    onResults f s = measureStep f.width lm Lsh Rsh s c := by
  obtain ⟨h1, h2, h3, h4, h5, h6, h7, h8, h9, h10, h11, h12, h13⟩ := h
  rw [onResults, if_neg (by rw [h1]; exact Bool.false_ne_true), h2]
  show gateAndProcess f.width f.height lm s = _
  rw [gateAndProcess, if_neg (not_not_intro ⟨h5, h6, h7⟩), h3, h4, h8]
  show processBody f.width f.height lm Lsh Rsh hip s = _
  rw [processBody, if_neg (not_not_intro h9),
    if_neg (by rw [h10]; exact fun hc => Phase.noConfusion hc),
    if_neg (not_not_intro (show truthyR s.cmPerPx by rw [h11]; exact h12))]
  simp only [h11, Option.getD_some]
  rw [if_neg (not_le.mpr h13)]

lemma measureStep_cmPerPx (W : ℝ) (lm : ℕ → Option Landmark)
    (Lsh Rsh : Landmark) (s : SessionState) (c : ℝ) :
    (measureStep W lm Lsh Rsh s c).cmPerPx = s.cmPerPx := by
  simp only [measureStep]
  split <;> rfl

lemma measureStep_phase (W : ℝ) (lm : ℕ → Option Landmark)
    (Lsh Rsh : Landmark) (s : SessionState) (c : ℝ) :
    (measureStep W lm Lsh Rsh s c).phase = s.phase ∨
      (measureStep W lm Lsh Rsh s c).phase = .locked := by
  simp only [measureStep]
  split
  · exact Or.inr rfl
  · exact Or.inl rfl

lemma processBody_cmPerPx (W H : ℝ) (lm : ℕ → Option Landmark)
    (Lsh Rsh hip : Landmark) (s : SessionState) :
    (processBody W H lm Lsh Rsh hip s).cmPerPx = s.cmPerPx := by
  simp only [processBody]
  split_ifs <;> first | rfl | exact measureStep_cmPerPx ..

lemma processBody_phase (W H : ℝ) (lm : ℕ → Option Landmark)
    (Lsh Rsh hip : Landmark) (s : SessionState) :
    (processBody W H lm Lsh Rsh hip s).phase = s.phase ∨
      ((processBody W H lm Lsh Rsh hip s).phase = .locked ∧
        truthyR s.cmPerPx) := by
  simp only [processBody]
  split_ifs with h1 h2 h3 h4
  all_goals try exact Or.inl rfl
  all_goals
    rcases measureStep_phase W lm Lsh Rsh s (s.cmPerPx.getD 0) with h | h
  · exact Or.inl h
  · exact Or.inr ⟨h, by tauto⟩

lemma gateAndProcess_cmPerPx (W H : ℝ) (lm : ℕ → Option Landmark)
    (s : SessionState) :
    (gateAndProcess W H lm s).cmPerPx = s.cmPerPx := by
  simp only [gateAndProcess]
  split
  · rfl
  · split
    · exact processBody_cmPerPx ..
    · rfl

lemma gateAndProcess_phase (W H : ℝ) (lm : ℕ → Option Landmark)
    (s : SessionState) :
    (gateAndProcess W H lm s).phase = s.phase ∨
      ((gateAndProcess W H lm s).phase = .locked ∧ truthyR s.cmPerPx) := by
  simp only [gateAndProcess]
  split
  · exact Or.inl rfl
  · split
    · exact processBody_phase ..
    · exact Or.inl rfl

lemma onResults_cmPerPx (f : Frame) (s : SessionState) :
    (onResults f s).cmPerPx = s.cmPerPx := by
  rw [onResults]
  split
  · rfl
  · split
    · rfl
    · exact gateAndProcess_cmPerPx ..

lemma onResults_phase (f : Frame) (s : SessionState) :
    (onResults f s).phase = s.phase ∨
      ((onResults f s).phase = .locked ∧ truthyR s.cmPerPx) := by
  rw [onResults]
  split
  · exact Or.inl rfl
  · split
    · exact Or.inl rfl
    · exact gateAndProcess_phase ..

lemma truthyR_isSome {o : Option ℝ} (h : truthyR o) : o.isSome := by
  cases o with
  | none => exact h.elim
  | some q => rfl

/-- Inductive invariant behind claim C1: every reachable state in phase
`measure` or `locked` carries a defined calibration factor. -/
lemma reachable_cmPerPx (s : SessionState) (hs : Reachable s)
    (hp : s.phase = .measure ∨ s.phase = .locked) : s.cmPerPx.isSome := by
  induction hs with
  | init => rcases hp with h | h <;> exact absurd h (by simp [initialState])
  | bar t v ht hcal ih =>
      rcases hp with h | h <;>
        · rw [show (setBarPx v t).phase = t.phase from rfl, hcal] at h
          exact absurd h (by simp)
  | calib t ht hcal ih =>
      by_cases hbar : t.barPx < 40
      · rw [setCalibration, if_pos hbar] at hp ⊢
        rcases hp with h | h <;> · rw [hcal] at h; exact absurd h (by simp)
      · rw [setCalibration, if_neg hbar]
        rfl
  | retakeOp t ht hlock hm ih =>
      rw [show (retake t).cmPerPx = t.cmPerPx from rfl]
      exact ih (Or.inr hlock)
  | recalOp t ht hlock hm ih =>
      rcases hp with h | h <;>
        · rw [show (recalibrate t).phase = .calibrate from rfl] at h
          exact absurd h (by simp)
  | frame t f ht ih =>
      rw [onResults_cmPerPx]
      rcases onResults_phase f t with h | h
      · exact ih (by rw [← h]; exact hp)
      · exact truthyR_isSome h.2

/-! ### Replicate-window lemmas in literal form -/

lemma listMax_replicate' (n : ℕ) (x : ℝ) (h : n ≠ 0) :
    listMax (List.replicate n x) = x := by
  cases n with
  | zero => exact absurd rfl h
  | succ k => exact listMax_replicate k x

lemma listMin_replicate' (n : ℕ) (x : ℝ) (h : n ≠ 0) :
    listMin (List.replicate n x) = x := by
  cases n with
  | zero => exact absurd rfl h
  | succ k => exact listMin_replicate k x

lemma maxDevOf_replicate' (n : ℕ) (x : ℝ) (h : n ≠ 0) :
    maxDevOf (List.replicate n x) = 0 := by
  cases n with
  | zero => exact absurd rfl h
  | succ k => exact maxDevOf_replicate k x

lemma medVal_replicate' (n : ℕ) (x : ℝ) (h : n ≠ 0) :
    medVal (List.replicate n x) = x := by
  cases n with
  | zero => exact absurd rfl h
  | succ k => exact medVal_replicate k x

lemma spreadOf_replicate (n : ℕ) (x : ℝ) (h : 8 ≤ n) :
    spreadOf (List.replicate n x) = 0 := by
  rw [spreadOf, if_pos (by simpa using h),
    listMax_replicate' n x (by omega), listMin_replicate' n x (by omega), sub_self]

lemma pushMed_replicate (k n : ℕ) (x : ℝ) (h : k + 1 ≤ n) :
    pushMed (List.replicate k x) (some x) n = (List.replicate (k + 1) x, some x) := by
  simp only [pushMed, pushWindow_replicate k n x h, medVal_replicate]

lemma pushMed_none (buf : List ℝ) (n : ℕ) : pushMed buf none n = (buf, none) := rfl

lemma round1_49 : round1 (49 : ℝ) = 49 := by
  rw [show (49 : ℝ) = ((49 : ℤ) : ℝ) by norm_num, round1_int]

lemma round1_28 : round1 (28 : ℝ) = 28 := by
  rw [show (28 : ℝ) = ((28 : ℤ) : ℝ) by norm_num, round1_int]

/-! ### A concrete measuring session that reaches the lock

A 1000×1000 frame with both shoulders at height `0.5`, x-coordinates `0.3`
and `0.7`, and only the left hip visible at `(0.5, 0.8)`.  With the default
`barPx = 300` calibration (`cmPerPx = 0.07`) the shoulder pixel distance is
400px, so `shoulderCm = 28` and `chestCm = 49`; the normalized shoulder
width is exactly `0.4` every frame, so the session locks on the 12th
accepted frame. -/

/-- Left shoulder landmark (index 11) of the demo frame. -/
def demoLsh : Landmark := ⟨3 / 10, 1 / 2, some (9 / 10)⟩

/-- Right shoulder landmark (index 12) of the demo frame. -/
def demoRsh : Landmark := ⟨7 / 10, 1 / 2, some (9 / 10)⟩

/-- Left hip landmark (index 23) of the demo frame; the right hip (24) is
absent. -/
def demoHip : Landmark := ⟨1 / 2, 4 / 5, some (9 / 10)⟩

/-- The landmark array of the demo frame. -/
def demoLm : ℕ → Option Landmark := fun i =>
  if i = 11 then some demoLsh
  else if i = 12 then some demoRsh
  else if i = 23 then some demoHip
  else none

/-- The demo frame. -/
def demoFrame : Frame := ⟨1000, 1000, some demoLm⟩

/-- The measuring-phase state after `k` accepted demo frames. -/
def demoState (k : ℕ) (st : String) : SessionState :=
  { phase := .measure
    status := st
    barPx := 300
    cmPerPx := some (7 / 100)
    locked := false
    meas := none
    recentShoulderN := List.replicate k (2 / 5)
    chestBuf := List.replicate k 49
    shoulderBuf := List.replicate k 28
    waistBuf := [] }

lemma demo_vis11 : visP demoLm 11 := by
  norm_num [visP, visOf, demoLm, demoLsh]

lemma demo_vis12 : visP demoLm 12 := by
  norm_num [visP, visOf, demoLm, demoRsh]

lemma demo_vis23 : visP demoLm 23 := by
  norm_num [visP, visOf, demoLm, demoHip]

lemma demo_not_vis24 : ¬ visP demoLm 24 := by
  norm_num [visP, visOf, demoLm]

lemma demo_wN : getDistance demoLsh.pt demoRsh.pt = 2 / 5 := by
  apply getDistance_eval _ _ _ (by norm_num)
  simp only [demoLsh, demoRsh, Landmark.pt]
  norm_num

lemma demo_shoulderCm : shoulderCmOf 1000 demoLsh demoRsh (7 / 100) = 28 := by
  simp only [shoulderCmOf, shoulderPxOf, demoLsh, demoRsh]
  rw [show ((3 : ℝ) / 10 - 7 / 10) * 1000 = -400 by norm_num]
  rw [abs_of_nonpos (by norm_num)]
  norm_num

lemma demo_waistInstant : waistInstantOf 1000 demoLm (7 / 100) = none := by
  simp only [waistInstantOf, demoLm]
  norm_num

lemma demo_mainPath (k : ℕ) (st : String) :
    MainPath demoFrame (demoState k st) demoLm demoLsh demoRsh demoHip (7 / 100) := by
  refine ⟨rfl, rfl, rfl, rfl, demo_vis11, demo_vis12, Or.inl demo_vis23,
    by rw [if_pos demo_vis23]; rfl, ?_, rfl, rfl, by norm_num, ?_⟩
  · simp only [insideGuide, GUIDE_MARGIN, Landmark.pt, demoLsh, demoRsh, demoHip,
      List.mem_cons, List.not_mem_nil, or_false]
    rintro p (rfl | rfl | rfl) <;> norm_num [demoFrame]
  · apply getDistance_pos
    right
    simp only [shMidOf, Landmark.pt, demoLsh, demoRsh, demoHip]
    norm_num

lemma demo_step (k : ℕ) (hk : k ≤ 10) (st : String) :
    measureStep 1000 demoLm demoLsh demoRsh (demoState k st) (7 / 100) =
      demoState (k + 1) "Hold still…" := by
  simp only [measureStep, demoState, STABILITY_FRAMES, CHEST_MULTIPLIER,
    demo_wN, demo_shoulderCm, demo_waistInstant, pushMed_none]
  rw [show (28 : ℝ) * 1.75 = 49 by norm_num]
  rw [pushWindow_replicate k 12 (2 / 5) (by omega),
    pushMed_replicate k 15 49 (by omega),
    pushMed_replicate k 15 28 (by omega)]
  rw [if_neg (by
    intro hcon
    have h := hcon.1.1
    simp only [List.length_replicate] at h
    omega)]

/-- The state produced by the locking 12th demo frame. -/
def demoLocked : SessionState :=
  { phase := .locked
    status := "Locked ✔️"
    barPx := 300
    cmPerPx := some (7 / 100)
    locked := true
    meas := some
      { chestCm := 49
        shoulderCm := 28
        upperWaistCm := none
        qualityFrames := 12
        qualitySpreadCm := 0 }
    recentShoulderN := List.replicate 12 (2 / 5)
    chestBuf := List.replicate 12 49
    shoulderBuf := List.replicate 12 28
    waistBuf := [] }

lemma demo_lock (st : String) :
    measureStep 1000 demoLm demoLsh demoRsh (demoState 11 st) (7 / 100) =
      demoLocked := by
  simp only [measureStep, demoState, STABILITY_FRAMES, CHEST_MULTIPLIER, MOVEMENT_EPS,
    demo_wN, demo_shoulderCm, demo_waistInstant, pushMed_none]
  rw [show (28 : ℝ) * 1.75 = 49 by norm_num]
  rw [pushWindow_replicate 11 12 (2 / 5) (by omega),
    pushMed_replicate 11 15 49 (by omega),
    pushMed_replicate 11 15 28 (by omega)]
  rw [if_pos (by
    refine ⟨⟨?_, ?_, ?_⟩, ?_, ?_⟩
    · simp
    · rw [maxDevOf_replicate' (11 + 1) (2 / 5) (by omega)]
      norm_num [MOVEMENT_EPS]
    · show spreadOf (List.replicate (11 + 1) (49 : ℝ), some (49 : ℝ)).1 < 1.8
      rw [show (List.replicate (11 + 1) (49 : ℝ), some (49 : ℝ)).1 =
        List.replicate (11 + 1) (49 : ℝ) from rfl, spreadOf_replicate (11 + 1) 49 (by omega)]
      norm_num
    · show (49 : ℝ) ≠ 0
      norm_num
    · show (28 : ℝ) ≠ 0
      norm_num)]
  simp only [demoLocked, spreadOf_replicate (11 + 1) 49 (by omega), round2_zero,
    List.length_replicate, Option.getD_some, round1_49, round1_28, waistLockField]

lemma demo_onResults_step (k : ℕ) (hk : k ≤ 10) (st : String) :
    onResults demoFrame (demoState k st) = demoState (k + 1) "Hold still…" := by
  rw [onResults_measure demoFrame (demoState k st) demoLm demoLsh demoRsh demoHip
    (7 / 100) (demo_mainPath k st)]
  exact demo_step k hk st

lemma demo_onResults_lock (st : String) :
    onResults demoFrame (demoState 11 st) = demoLocked := by
  rw [onResults_measure demoFrame (demoState 11 st) demoLm demoLsh demoRsh demoHip
    (7 / 100) (demo_mainPath 11 st)]
  exact demo_lock st

lemma setCalibration_initial :
    setCalibration initialState =
      demoState 0 "Calibration set. Stand centered; shoulders & upper torso visible." := by
  rw [setCalibration, if_neg (by norm_num [initialState])]
  simp only [initialState, demoState, A4_WIDTH_CM, List.replicate,
    SessionState.mk.injEq]
  norm_num

lemma reach_demo0 :
    Reachable (demoState 0 "Calibration set. Stand centered; shoulders & upper torso visible.") := by
  rw [← setCalibration_initial]
  exact Reachable.calib initialState Reachable.init rfl

lemma reach_demo (k : ℕ) (hk : k ≤ 11) :
    Reachable (demoState k
      (if k = 0 then "Calibration set. Stand centered; shoulders & upper torso visible."
       else "Hold still…")) := by
  induction k with
  | zero => simpa using reach_demo0
  | succ j ih =>
    have h2 := Reachable.frame _ demoFrame (ih (by omega))
    rw [demo_onResults_step j (by omega)] at h2
    simpa using h2

lemma reach_demoLocked : Reachable demoLocked := by
  have h := Reachable.frame _ demoFrame (reach_demo 11 (by omega))
  rwa [demo_onResults_lock] at h

/-! ### Claim C1 -/

/-- C1 (counterexample): the claimed invariant — `cmPerPixel` is defined iff
the phase is measuring or locked, and recalibrating destroys the calibration
factor — fails on the code.  A session that calibrates (bar at the default
300px), locks after 12 accepted frames, and presses Recalibrate reaches a
state whose phase is `calibrate` while `cmPerPx` is still `0.07`:
`recalibrate` never resets `cmPerPx`. -/
theorem claim_C1_counterexample :
    Reachable (recalibrate demoLocked) ∧
    (recalibrate demoLocked).phase = .calibrate ∧
    (recalibrate demoLocked).cmPerPx = some (7 / 100) :=
  ⟨Reachable.recalOp demoLocked reach_demoLocked rfl rfl, rfl, rfl⟩

/-- C1 (amended): in every reachable session state, if the phase is measuring
or locked then `cmPerPixel` is defined; the converse fails because
`recalibrate` re-enters the calibrating phase while leaving the calibration
factor untouched (it only clears `locked`, `meas`, the status and the
windows). -/
theorem claim_C1_amended :
    (∀ s : SessionState, Reachable s →
        (s.phase = .measure ∨ s.phase = .locked) → s.cmPerPx.isSome) ∧
    (∀ s : SessionState,
        (recalibrate s).phase = .calibrate ∧
        (recalibrate s).cmPerPx = s.cmPerPx ∧
        (recalibrate s).meas = none ∧ (recalibrate s).locked = false) :=
  ⟨reachable_cmPerPx, fun _ => ⟨rfl, rfl, rfl, rfl⟩⟩

/-- C1 (witness): the amended invariant applied to a concrete reachable
state — the state right after a successful default calibration is in the
measuring phase and indeed carries a defined `cmPerPx`. -/
theorem claim_C1_witness :
    (setCalibration initialState).phase = .measure ∧
    (setCalibration initialState).cmPerPx.isSome := by
  constructor
  · rw [setCalibration_initial]
    rfl
  · exact claim_C1_amended.1 (setCalibration initialState)
      (Reachable.calib initialState Reachable.init rfl)
      (Or.inl (by rw [setCalibration_initial]; rfl))

/-! ### Classifier guard helpers (shared between claims) -/

lemma recommendTopSize_of_guard (c w sh : Option ℝ) (h : sizeGuardFails c w sh) :
    recommendTopSize c w sh = none := by
  simp only [recommendTopSize]
  rw [if_pos h]

lemma estimateSize_of_guard (m : MLMeasurements)
    (h : sizeGuardFails m.chestCm (jsOr m.upperWaistCm m.waistCm) m.shoulderCm) :
    estimateSizeFromMeasurements m = "M" := by
  simp only [estimateSizeFromMeasurements]
  rw [if_pos h]

/-! ### Claim C2 -/

/-- C2 (counterexample): the backend deployment does not return "absent" on
missing input — `estimateSizeFromMeasurements` with every measurement missing
returns the fallback size label `'M'` (its return type always carries a size
label; the guard branch is `return 'M'`, annotated "Default fallback if
measurements are missing"). -/
theorem claim_C2_counterexample :
    estimateSizeFromMeasurements ⟨none, none, none, none⟩ = "M" := by
  simp only [estimateSizeFromMeasurements]
  have hg : sizeGuardFails none (jsOr none none) none := Or.inl (fun h => h)
  rw [if_pos hg]

/-- C2 (amended): on any input triple in which a component is missing or
non-positive (the shared guard of both classifiers), the frontend classifier
`recommendTopSize` returns absent, while the backend classifier
`estimateSizeFromMeasurements` returns the default fallback label `'M'`. -/
theorem claim_C2_amended :
    (∀ c w sh : Option ℝ, sizeGuardFails c w sh → recommendTopSize c w sh = none) ∧
    (∀ m : MLMeasurements,
        sizeGuardFails m.chestCm (jsOr m.upperWaistCm m.waistCm) m.shoulderCm →
        estimateSizeFromMeasurements m = "M") :=
  ⟨recommendTopSize_of_guard, estimateSize_of_guard⟩

/-- C2 (witness): the amended claim at concrete inputs — a missing chest on
the frontend, a missing shoulder on the backend. -/
theorem claim_C2_witness :
    recommendTopSize none (some 70) (some 40) = none ∧
    estimateSizeFromMeasurements ⟨some 100, some 90, none, none⟩ = "M" :=
  ⟨claim_C2_amended.1 none (some 70) (some 40) (Or.inl (fun h => h)),
   claim_C2_amended.2 ⟨some 100, some 90, none, none⟩
     (Or.inr (Or.inr (Or.inl (fun h => h))))⟩

/-! ### Claim C4 -/

/-- C4: the two-size classifier is a pure function (equal inputs give equal
outputs), returns absent for a zero-or-negative chest, and returns `XL` at
(chest 105, waist 90, shoulder 50) and `L` at (chest 85, waist 72,
shoulder 40). -/
theorem claim_C4 :
    (∀ c w sh c' w' sh' : Option ℝ, c = c' → w = w' → sh = sh' →
        recommendTopSize c w sh = recommendTopSize c' w' sh') ∧
    (∀ (x : ℝ) (w sh : Option ℝ), x ≤ 0 → recommendTopSize (some x) w sh = none) ∧
    recommendTopSize (some 105) (some 90) (some 50) = some "XL" ∧
    recommendTopSize (some 85) (some 72) (some 40) = some "L" := by
  refine ⟨fun c w sh c' w' sh' hc hw hsh => by rw [hc, hw, hsh], ?_, ?_, ?_⟩
  · intro x w sh hx
    exact recommendTopSize_of_guard _ _ _ (Or.inr (Or.inr (Or.inr (Or.inl hx))))
  · rw [recommendTopSize, if_neg (by
      simp only [sizeGuardFails, truthyR, leZero]
      push_neg
      norm_num)]
    norm_num
  · rw [recommendTopSize, if_neg (by
      simp only [sizeGuardFails, truthyR, leZero]
      push_neg
      norm_num)]
    norm_num

/-- C4 (witness): the universally quantified parts of C4 applied at concrete
inputs. -/
theorem claim_C4_witness :
    recommendTopSize (some 100) (some 80) (some 45) =
      recommendTopSize (some 100) (some 80) (some 45) ∧
    recommendTopSize (some (-5)) (some 80) (some 45) = none :=
  ⟨claim_C4.1 (some 100) (some 80) (some 45) _ _ _ rfl rfl rfl,
   claim_C4.2.1 (-5) (some 80) (some 45) (by norm_num)⟩

/-! ### Claim C7 -/

/-- C7: immediately after `retake` or `recalibrate` returns, all four sliding
windows have length zero — they are assigned the empty array in both
handlers, before any further frame can be processed. -/
theorem claim_C7 :
    ∀ s : SessionState,
      (retake s).recentShoulderN.length = 0 ∧ (retake s).chestBuf.length = 0 ∧
      (retake s).shoulderBuf.length = 0 ∧ (retake s).waistBuf.length = 0 ∧
      (recalibrate s).recentShoulderN.length = 0 ∧
      (recalibrate s).chestBuf.length = 0 ∧
      (recalibrate s).shoulderBuf.length = 0 ∧
      (recalibrate s).waistBuf.length = 0 :=
  fun _ => ⟨rfl, rfl, rfl, rfl, rfl, rfl, rfl, rfl⟩

/-! ### Claim C8 -/

/-- C8 (counterexample): a reference-bar width of exactly 40px does not
exceed the 40px minimum, yet calibration is accepted: the guard is
`if (barPx < 40) return`, so at `barPx = 40` the phase advances to
`measure` and `cmPerPx` is set to `21/40`. -/
theorem claim_C8_counterexample :
    (setCalibration (setBarPx 40 initialState)).phase = .measure ∧
    (setCalibration (setBarPx 40 initialState)).cmPerPx = some (21 / 40) := by
  rw [setCalibration, if_neg (by norm_num [setBarPx, initialState])]
  exact ⟨rfl, rfl⟩

/-- C8 (amended): calibration with a bar width strictly below 40px is
refused — the state is returned entirely unchanged (no `cmPerPx`, no phase
advance, no buffer modification); at 40px or more, `setCalibration` sets
`cmPerPx = A4_WIDTH_CM / barPx`, moves the phase to measuring and clears
every measurement window. -/
theorem claim_C8_amended :
    ∀ s : SessionState,
      (s.barPx < 40 → setCalibration s = s) ∧
      (40 ≤ s.barPx →
        setCalibration s =
          { s with
              cmPerPx := some (A4_WIDTH_CM / s.barPx)
              phase := .measure
              status := "Calibration set. Stand centered; shoulders & upper torso visible."
              chestBuf := []
              shoulderBuf := []
              waistBuf := []
              recentShoulderN := [] }) := by
  intro s
  constructor
  · intro h
    rw [setCalibration, if_pos h]
  · intro h
    rw [setCalibration, if_neg (not_lt.mpr h)]

/-- C8 (witness): the amended claim at concrete bar widths 39px (refused,
state unchanged) and the default 300px (accepted). -/
theorem claim_C8_witness :
    setCalibration (setBarPx 39 initialState) = setBarPx 39 initialState ∧
    (setCalibration initialState).cmPerPx = some (A4_WIDTH_CM / 300) := by
  constructor
  · exact (claim_C8_amended (setBarPx 39 initialState)).1
      (by norm_num [setBarPx, initialState])
  · rw [(claim_C8_amended initialState).2 (by norm_num [initialState])]
    rfl

/-! ### Claim C9 -/

/-- C9: with the 21cm reference, confirming calibration at the default 300px
bar yields `cmPerPixel = 0.07`; a shoulder landmark pair 400 pixels apart
(the demo shoulders at normalized x = 0.3 and 0.7 in a 1000px frame) then
yields `shoulderCm = shoulderPx * cmPerPx = 28.0`. -/
theorem claim_C9 :
    (setCalibration initialState).cmPerPx = some 0.07 ∧
    shoulderPxOf 1000 demoLsh demoRsh = 400 ∧
    shoulderCmOf 1000 demoLsh demoRsh (7 / 100) = 28 := by
  refine ⟨?_, ?_, demo_shoulderCm⟩
  · rw [setCalibration_initial]
    simp only [demoState, Option.some.injEq]
    norm_num
  · simp only [shoulderPxOf, demoLsh, demoRsh]
    rw [show ((3 : ℝ) / 10 - 7 / 10) * 1000 = -400 by norm_num,
      abs_of_nonpos (by norm_num)]
    norm_num

/-! ### Claim C5 -/

/-- C5: for every window state and every pushed sample, the value `pushMed`
returns equals the mathematical median of the window contents after the
push — stated against any sorted permutation of the post-push window: the
middle element for odd length, the mean of the two middle elements for even
length. -/
theorem claim_C5 :
    ∀ (buf : List ℝ) (v : ℝ) (n : ℕ) (s : List ℝ),
      s.Perm (pushWindow buf (some v) n) →
      s.Sorted (· ≤ ·) →
      (pushMed buf (some v) n).2 =
        some (if (pushWindow buf (some v) n).length % 2 = 1 then
                s.getD ((pushWindow buf (some v) n).length / 2) 0
              else
                (s.getD ((pushWindow buf (some v) n).length / 2 - 1) 0 +
                  s.getD ((pushWindow buf (some v) n).length / 2) 0) / 2) := by
  intro buf v n s hperm hsort
  have hs : List.insertionSort (· ≤ ·) (pushWindow buf (some v) n) = s :=
    List.eq_of_perm_of_sorted ((List.perm_insertionSort _ _).trans hperm.symm)
      (List.sorted_insertionSort _ _) hsort
  simp only [pushMed, medVal, hs]

/-- C5 (witness): pushing 11 onto window [10,12] yields the odd window
[10,12,11] with median 11; pushing 12 onto [10] yields the even window
[10,12] with median (10+12)/2 = 11. -/
theorem claim_C5_witness :
    (pushMed [10, 12] (some 11) 15).2 = some 11 ∧
    (pushMed [10] (some 12) 15).2 = some 11 := by
  constructor
  · have h := claim_C5 [10, 12] 11 15 [10, 11, 12]
      (by
        have hw : pushWindow [10, 12] (some 11) 15 = [10, 12, 11] := rfl
        rw [hw]
        exact List.Perm.cons 10 (List.Perm.swap 12 11 []))
      (by norm_num [List.sorted_cons])
    rw [h]
    norm_num [pushWindow]
  · have h := claim_C5 [10] 12 15 [10, 12]
      (by
        have hw : pushWindow [10] (some 12) 15 = [10, 12] := rfl
        rw [hw])
      (by norm_num [List.sorted_cons])
    rw [h]
    norm_num [pushWindow]

/-! ### Claim C6 -/

/-- C6: a frame whose landmark set is absent, or whose required joints
(both shoulders, at least one hip) are missing or below the 0.45 visibility
threshold, changes nothing but the status string: the returned state is the
input state with only `status` replaced by the specific rejection message, so
no sliding window is touched. -/
theorem claim_C6 :
    ∀ (f : Frame) (s : SessionState), s.locked = false →
      (f.poseLandmarks = none →
        onResults f s = { s with status := "Detecting body…" }) ∧
      (∀ lm, f.poseLandmarks = some lm →
        ¬ (visP lm 11 ∧ visP lm 12 ∧ (visP lm 23 ∨ visP lm 24)) →
        onResults f s = { s with status := "Show shoulders & upper torso." }) := by
  intro f s hl
  constructor
  · intro hnone
    rw [onResults, if_neg (by rw [hl]; exact Bool.false_ne_true), hnone]
  · intro lm hsome hgate
    rw [onResults, if_neg (by rw [hl]; exact Bool.false_ne_true), hsome]
    show gateAndProcess f.width f.height lm s = _
    rw [gateAndProcess, if_pos hgate]

/-- C6 (witness): a frame with no landmark array, and a frame carrying only
the left-shoulder landmark, both leave the initial state's windows untouched
and set the documented rejection statuses. -/
theorem claim_C6_witness :
    onResults ⟨1000, 1000, none⟩ initialState =
      { initialState with status := "Detecting body…" } ∧
    onResults ⟨1000, 1000, some (fun i => if i = 11 then some demoLsh else none)⟩
        initialState =
      { initialState with status := "Show shoulders & upper torso." } := by
  constructor
  · exact (claim_C6 ⟨1000, 1000, none⟩ initialState rfl).1 rfl
  · exact (claim_C6 _ initialState rfl).2
      (fun i => if i = 11 then some demoLsh else none) rfl
      (by
        intro h
        have h12 := h.2.1
        norm_num [visP, visOf] at h12)

/-! ### Claim C3 -/

lemma pushWindow_length_le (buf : List ℝ) (v : ℝ) (n : ℕ) (h : buf.length ≤ n) :
    (pushWindow buf (some v) n).length ≤ n := by
  simp only [pushWindow]
  split
  · simp only [List.length_tail, List.length_append, List.length_cons, List.length_nil]
    omega
  · next hge =>
      simp only [List.length_append, List.length_cons, List.length_nil] at hge ⊢
      omega

lemma measureStep_locked_iff (W : ℝ) (lm : ℕ → Option Landmark)
    (Lsh Rsh : Landmark) (s : SessionState) (c : ℝ)
    (hph : s.phase = .measure) (hlen : s.recentShoulderN.length ≤ 12) :
    ((measureStep W lm Lsh Rsh s c).phase = .locked ↔
      ((pushWindow s.recentShoulderN (some (getDistance Lsh.pt Rsh.pt)) 12).length = 12 ∧
       maxDevOf (pushWindow s.recentShoulderN (some (getDistance Lsh.pt Rsh.pt)) 12) < 0.015 ∧
       spreadOf (pushMed s.chestBuf
         (some (shoulderCmOf W Lsh Rsh c * CHEST_MULTIPLIER)) 15).1 < 1.8 ∧
       truthyR (pushMed s.chestBuf
         (some (shoulderCmOf W Lsh Rsh c * CHEST_MULTIPLIER)) 15).2 ∧
       truthyR (pushMed s.shoulderBuf (some (shoulderCmOf W Lsh Rsh c)) 15).2)) ∧
    ((measureStep W lm Lsh Rsh s c).phase = .locked →
      (measureStep W lm Lsh Rsh s c).locked = true ∧
      (measureStep W lm Lsh Rsh s c).meas = some
        { chestCm := round1 ((pushMed s.chestBuf
            (some (shoulderCmOf W Lsh Rsh c * CHEST_MULTIPLIER)) 15).2.getD 0)
          shoulderCm := round1 ((pushMed s.shoulderBuf
            (some (shoulderCmOf W Lsh Rsh c)) 15).2.getD 0)
          upperWaistCm := waistLockField (pushMed s.waistBuf (waistInstantOf W lm c) 15).2
          qualityFrames := (pushMed s.chestBuf
            (some (shoulderCmOf W Lsh Rsh c * CHEST_MULTIPLIER)) 15).1.length
          qualitySpreadCm := round2 (spreadOf (pushMed s.chestBuf
            (some (shoulderCmOf W Lsh Rsh c * CHEST_MULTIPLIER)) 15).1) }) := by
  have hbound := pushWindow_length_le s.recentShoulderN (getDistance Lsh.pt Rsh.pt) 12 hlen
  simp only [measureStep, STABILITY_FRAMES, MOVEMENT_EPS]
  split
  · next hC =>
      refine ⟨⟨fun _ => ?_, fun _ => rfl⟩, fun _ => ⟨rfl, rfl⟩⟩
      exact ⟨le_antisymm hbound hC.1.1, hC.1.2.1, hC.1.2.2, hC.2.1, hC.2.2⟩
  · next hC =>
      constructor
      · constructor
        · intro hcon
          have hs : s.phase = Phase.locked := hcon
          rw [hph] at hs
          exact absurd hs (by simp)
        · intro hcond
          exact absurd ⟨⟨hcond.1.ge, hcond.2.1, hcond.2.2.1⟩,
            hcond.2.2.2.1, hcond.2.2.2.2⟩ hC
      · intro hcon
        have hs : s.phase = Phase.locked := hcon
        rw [hph] at hs
        exact absurd hs (by simp)

/-- C3 (amended): on an accepted frame in the measuring phase (all gates
passed, stability window at most its 12-sample capacity), the
measuring → locked transition fires if and only if, after the frame's
pushes: the stability window holds its full 12-sample capacity and its
maximum absolute deviation from the window mean is below 0.015; the
chest-window spread (999 until the window holds 8 samples) is below 1.8 cm;
and the chest and shoulder medians are defined AND nonzero (the source tests
them by JavaScript truthiness, so a zero median blocks the lock).  On
firing, the medians rounded to one decimal place and the quality diagnostics
(frame count, spread rounded to two decimals) are frozen into the
LockedMeasurement; once `locked` is set, `onResults` returns every
subsequent state unchanged (no buffer or record mutation) until an explicit
retake/recalibrate clears it. -/
theorem claim_C3_amended :
    (∀ (f : Frame) (s : SessionState) (lm : ℕ → Option Landmark)
        (Lsh Rsh hip : Landmark) (c : ℝ),
        MainPath f s lm Lsh Rsh hip c →
        s.recentShoulderN.length ≤ 12 →
        (((onResults f s).phase = .locked ↔
          ((pushWindow s.recentShoulderN (some (getDistance Lsh.pt Rsh.pt)) 12).length = 12 ∧
           maxDevOf (pushWindow s.recentShoulderN (some (getDistance Lsh.pt Rsh.pt)) 12) < 0.015 ∧
           spreadOf (pushMed s.chestBuf
             (some (shoulderCmOf f.width Lsh Rsh c * CHEST_MULTIPLIER)) 15).1 < 1.8 ∧
           truthyR (pushMed s.chestBuf
             (some (shoulderCmOf f.width Lsh Rsh c * CHEST_MULTIPLIER)) 15).2 ∧
           truthyR (pushMed s.shoulderBuf (some (shoulderCmOf f.width Lsh Rsh c)) 15).2)) ∧
         ((onResults f s).phase = .locked →
           (onResults f s).locked = true ∧
           (onResults f s).meas = some
             { chestCm := round1 ((pushMed s.chestBuf
                 (some (shoulderCmOf f.width Lsh Rsh c * CHEST_MULTIPLIER)) 15).2.getD 0)
               shoulderCm := round1 ((pushMed s.shoulderBuf
                 (some (shoulderCmOf f.width Lsh Rsh c)) 15).2.getD 0)
               upperWaistCm := waistLockField (pushMed s.waistBuf
                 (waistInstantOf f.width lm c) 15).2
               qualityFrames := (pushMed s.chestBuf
                 (some (shoulderCmOf f.width Lsh Rsh c * CHEST_MULTIPLIER)) 15).1.length
               qualitySpreadCm := round2 (spreadOf (pushMed s.chestBuf
                 (some (shoulderCmOf f.width Lsh Rsh c * CHEST_MULTIPLIER)) 15).1) }))) ∧
    (∀ (f : Frame) (s : SessionState), s.locked = true → onResults f s = s) := by
  constructor
  · intro f s lm Lsh Rsh hip c hmp hlen
    obtain ⟨h1, h2, h3, h4, h5, h6, h7, h8, h9, h10, h11, h12, h13⟩ := hmp
    rw [onResults_measure f s lm Lsh Rsh hip c
      ⟨h1, h2, h3, h4, h5, h6, h7, h8, h9, h10, h11, h12, h13⟩]
    exact measureStep_locked_iff f.width lm Lsh Rsh s c h10 hlen
  · intro f s hl
    rw [onResults, if_pos hl]

/-- C3 (witness): the amended claim at the demo session — the 12th accepted
demo frame satisfies all lock conditions, so the transition fires and sets
`locked`, and a further frame on the locked state is a no-op. -/
theorem claim_C3_witness :
    (onResults demoFrame (demoState 11 "Hold still…")).phase = .locked ∧
    (onResults demoFrame (demoState 11 "Hold still…")).locked = true ∧
    onResults demoFrame demoLocked = demoLocked := by
  have h1 := claim_C3_amended.1 demoFrame (demoState 11 "Hold still…") demoLm
    demoLsh demoRsh demoHip (7 / 100) (demo_mainPath 11 "Hold still…")
    (by simp [demoState])
  have hph : (onResults demoFrame (demoState 11 "Hold still…")).phase = .locked := by
    apply h1.1.mpr
    refine ⟨?_, ?_, ?_, ?_, ?_⟩
    · simp only [demoState, demo_wN, pushWindow_replicate 11 12 (2 / 5) (by omega),
        List.length_replicate]
    · simp only [demoState, demo_wN, pushWindow_replicate 11 12 (2 / 5) (by omega)]
      rw [maxDevOf_replicate' (11 + 1) (2 / 5) (by omega)]
      norm_num
    · rw [show shoulderCmOf demoFrame.width demoLsh demoRsh (7 / 100) = 28 from demo_shoulderCm,
        show (28 : ℝ) * CHEST_MULTIPLIER = 49 by norm_num [CHEST_MULTIPLIER]]
      simp only [demoState, pushMed_replicate 11 15 49 (by omega)]
      rw [spreadOf_replicate (11 + 1) 49 (by omega)]
      norm_num
    · rw [show shoulderCmOf demoFrame.width demoLsh demoRsh (7 / 100) = 28 from demo_shoulderCm,
        show (28 : ℝ) * CHEST_MULTIPLIER = 49 by norm_num [CHEST_MULTIPLIER]]
      simp only [demoState, pushMed_replicate 11 15 49 (by omega)]
      show (49 : ℝ) ≠ 0
      norm_num
    · rw [show shoulderCmOf demoFrame.width demoLsh demoRsh (7 / 100) = 28 from demo_shoulderCm]
      simp only [demoState, pushMed_replicate 11 15 28 (by omega)]
      show (28 : ℝ) ≠ 0
      norm_num
  exact ⟨hph, (h1.2 hph).1, claim_C3_amended.2 demoFrame demoLocked rfl⟩

/-! ### The zero-median scenario: shoulders vertically aligned -/

/-- Left shoulder of the degenerate frame: same x as the right shoulder. -/
def zLsh : Landmark := ⟨1 / 2, 3 / 10, some (9 / 10)⟩

/-- Right shoulder of the degenerate frame. -/
def zRsh : Landmark := ⟨1 / 2, 9 / 20, some (9 / 10)⟩

/-- Landmark array of the degenerate frame (left hip as in the demo frame). -/
def zLm : ℕ → Option Landmark := fun i =>
  if i = 11 then some zLsh
  else if i = 12 then some zRsh
  else if i = 23 then some demoHip
  else none

/-- The degenerate frame: accepted by every gate, but with zero shoulder
pixel distance, hence zero chest/shoulder samples. -/
def zFrame : Frame := ⟨1000, 1000, some zLm⟩

/-- A measuring state with a full, perfectly still stability window and
eight zero chest/shoulder samples. -/
def zState : SessionState :=
  { phase := .measure
    status := "Hold still…"
    barPx := 300
    cmPerPx := some (7 / 100)
    locked := false
    meas := none
    recentShoulderN := List.replicate 12 (3 / 20)
    chestBuf := List.replicate 8 0
    shoulderBuf := List.replicate 8 0
    waistBuf := [] }

lemma z_wN : getDistance zLsh.pt zRsh.pt = 3 / 20 := by
  apply getDistance_eval _ _ _ (by norm_num)
  simp only [zLsh, zRsh, Landmark.pt]
  norm_num

lemma z_shoulderCm : shoulderCmOf 1000 zLsh zRsh (7 / 100) = 0 := by
  simp only [shoulderCmOf, shoulderPxOf, zLsh, zRsh]
  norm_num

lemma z_waistInstant : waistInstantOf 1000 zLm (7 / 100) = none := by
  simp only [waistInstantOf, zLm]
  norm_num

lemma z_mainPath : MainPath zFrame zState zLm zLsh zRsh demoHip (7 / 100) := by
  refine ⟨rfl, rfl, rfl, rfl, by norm_num [visP, visOf, zLm, zLsh],
    by norm_num [visP, visOf, zLm, zRsh],
    Or.inl (by norm_num [visP, visOf, zLm, demoHip]),
    by rw [if_pos (by norm_num [visP, visOf, zLm, demoHip])]; rfl,
    ?_, rfl, rfl, by norm_num, ?_⟩
  · simp only [insideGuide, GUIDE_MARGIN, Landmark.pt, zLsh, zRsh, demoHip,
      List.mem_cons, List.not_mem_nil, or_false]
    rintro p (rfl | rfl | rfl) <;> norm_num [zFrame]
  · apply getDistance_pos
    right
    simp only [shMidOf, Landmark.pt, zLsh, zRsh, demoHip]
    norm_num

lemma z_step :
    measureStep 1000 zLm zLsh zRsh zState (7 / 100) =
      { zState with
          status := "Hold still…"
          recentShoulderN := List.replicate 12 (3 / 20)
          chestBuf := List.replicate (8 + 1) 0
          shoulderBuf := List.replicate (8 + 1) 0
          waistBuf := [] } := by
  simp only [measureStep, zState, STABILITY_FRAMES, CHEST_MULTIPLIER,
    z_wN, z_shoulderCm, z_waistInstant, pushMed_none]
  rw [show (0 : ℝ) * 1.75 = 0 by norm_num]
  rw [pushWindow_replicate_shift 12 (3 / 20),
    pushMed_replicate 8 15 0 (by omega)]
  rw [if_neg (fun hcon => hcon.2.1 rfl)]

lemma z_eval :
    onResults zFrame zState =
      { zState with
          status := "Hold still…"
          recentShoulderN := List.replicate 12 (3 / 20)
          chestBuf := List.replicate (8 + 1) 0
          shoulderBuf := List.replicate (8 + 1) 0
          waistBuf := [] } := by
  rw [onResults_measure zFrame zState zLm zLsh zRsh demoHip (7 / 100) z_mainPath]
  exact z_step

/-! ### The rounding scenario: a lock whose median is not one-decimal exact -/

/-- Left shoulder for the rounding scenario (x = 0.2998). -/
def zbLsh : Landmark := ⟨1499 / 5000, 1 / 2, some (9 / 10)⟩

/-- Right shoulder for the rounding scenario (x = 0.7002). -/
def zbRsh : Landmark := ⟨3501 / 5000, 1 / 2, some (9 / 10)⟩

/-- Landmark array of the rounding-scenario frame. -/
def zbLm : ℕ → Option Landmark := fun i =>
  if i = 11 then some zbLsh
  else if i = 12 then some zbRsh
  else if i = 23 then some demoHip
  else none

/-- The rounding-scenario frame: shoulder pixel distance 400.4px, so
`shoulderCm = 28.028` and `chestCm = 49.049`. -/
def zbFrame : Frame := ⟨1000, 1000, some zbLm⟩

/-- A measuring state one frame away from locking on the 49.049cm chest
samples. -/
def zbState : SessionState :=
  { phase := .measure
    status := "Hold still…"
    barPx := 300
    cmPerPx := some (7 / 100)
    locked := false
    meas := none
    recentShoulderN := List.replicate 12 (1001 / 2500)
    chestBuf := List.replicate 11 (49049 / 1000)
    shoulderBuf := List.replicate 11 (7007 / 250)
    waistBuf := [] }

lemma zb_wN : getDistance zbLsh.pt zbRsh.pt = 1001 / 2500 := by
  apply getDistance_eval _ _ _ (by norm_num)
  simp only [zbLsh, zbRsh, Landmark.pt]
  norm_num

lemma zb_shoulderCm : shoulderCmOf 1000 zbLsh zbRsh (7 / 100) = 7007 / 250 := by
  simp only [shoulderCmOf, shoulderPxOf, zbLsh, zbRsh]
  rw [show ((1499 : ℝ) / 5000 - 3501 / 5000) * 1000 = -(2002 / 5) by norm_num,
    abs_of_nonpos (by norm_num)]
  norm_num

lemma zb_waistInstant : waistInstantOf 1000 zbLm (7 / 100) = none := by
  simp only [waistInstantOf, zbLm]
  norm_num

lemma zb_mainPath : MainPath zbFrame zbState zbLm zbLsh zbRsh demoHip (7 / 100) := by
  refine ⟨rfl, rfl, rfl, rfl, by norm_num [visP, visOf, zbLm, zbLsh],
    by norm_num [visP, visOf, zbLm, zbRsh],
    Or.inl (by norm_num [visP, visOf, zbLm, demoHip]),
    by rw [if_pos (by norm_num [visP, visOf, zbLm, demoHip])]; rfl,
    ?_, rfl, rfl, by norm_num, ?_⟩
  · simp only [insideGuide, GUIDE_MARGIN, Landmark.pt, zbLsh, zbRsh, demoHip,
      List.mem_cons, List.not_mem_nil, or_false]
    rintro p (rfl | rfl | rfl) <;> norm_num [zbFrame]
  · apply getDistance_pos
    right
    simp only [shMidOf, Landmark.pt, zbLsh, zbRsh, demoHip]
    norm_num

/-- The state frozen by the rounding-scenario lock. -/
def zbLocked : SessionState :=
  { phase := .locked
    status := "Locked ✔️"
    barPx := 300
    cmPerPx := some (7 / 100)
    locked := true
    meas := some
      { chestCm := 49
        shoulderCm := 28
        upperWaistCm := none
        qualityFrames := 12
        qualitySpreadCm := 0 }
    recentShoulderN := List.replicate 12 (1001 / 2500)
    chestBuf := List.replicate 12 (49049 / 1000)
    shoulderBuf := List.replicate 12 (7007 / 250)
    waistBuf := [] }

lemma zb_step :
    measureStep 1000 zbLm zbLsh zbRsh zbState (7 / 100) = zbLocked := by
  simp only [measureStep, zbState, STABILITY_FRAMES, CHEST_MULTIPLIER, MOVEMENT_EPS,
    zb_wN, zb_shoulderCm, zb_waistInstant, pushMed_none]
  rw [show (7007 : ℝ) / 250 * 1.75 = 49049 / 1000 by norm_num]
  rw [pushWindow_replicate_shift 12 (1001 / 2500),
    pushMed_replicate 11 15 (49049 / 1000) (by omega),
    pushMed_replicate 11 15 (7007 / 250) (by omega)]
  rw [if_pos (by
    refine ⟨⟨?_, ?_, ?_⟩, ?_, ?_⟩
    · simp
    · rw [maxDevOf_replicate' 12 (1001 / 2500) (by omega)]
      norm_num
    · rw [spreadOf_replicate (11 + 1) (49049 / 1000) (by omega)]
      norm_num
    · show (49049 : ℝ) / 1000 ≠ 0
      norm_num
    · show (7007 : ℝ) / 250 ≠ 0
      norm_num)]
  simp only [zbLocked, spreadOf_replicate (11 + 1) (49049 / 1000) (by omega), round2_zero,
    List.length_replicate, Option.getD_some, round1_49049, round1_28028, waistLockField]

lemma zb_eval : onResults zbFrame zbState = zbLocked := by
  rw [onResults_measure zbFrame zbState zbLm zbLsh zbRsh demoHip (7 / 100) zb_mainPath]
  exact zb_step

/-- C3 (counterexample): the claim as stated fails twice on the code.
(a) On the accepted degenerate frame `zFrame` in state `zState` every
condition the claim lists holds — the stability window is full (12 samples)
with zero deviation, the chest spread is 0 < 1.8, and both the chest and
shoulder medians are *defined* (they are `some 0`) — yet the transition does
not fire: the source tests the medians by JavaScript truthiness and a zero
median is falsy, so the state stays in the measuring phase with no
LockedMeasurement.  (b) On the locking frame `zbFrame` the frozen record
holds `chestCm = 49` while the current chest median is `49.049`: the lock
freezes `Number(median.toFixed(1))`, not the median itself. -/
theorem claim_C3_counterexample :
    ((pushWindow zState.recentShoulderN (some (getDistance zLsh.pt zRsh.pt)) 12).length = 12 ∧
     maxDevOf (pushWindow zState.recentShoulderN (some (getDistance zLsh.pt zRsh.pt)) 12) < 0.015 ∧
     spreadOf (pushMed zState.chestBuf
       (some (shoulderCmOf zFrame.width zLsh zRsh (7 / 100) * CHEST_MULTIPLIER)) 15).1 < 1.8 ∧
     (pushMed zState.chestBuf
       (some (shoulderCmOf zFrame.width zLsh zRsh (7 / 100) * CHEST_MULTIPLIER)) 15).2.isSome = true ∧
     (pushMed zState.shoulderBuf
       (some (shoulderCmOf zFrame.width zLsh zRsh (7 / 100))) 15).2.isSome = true ∧
     MainPath zFrame zState zLm zLsh zRsh demoHip (7 / 100) ∧
     (onResults zFrame zState).phase = .measure ∧
     (onResults zFrame zState).meas = none) ∧
    ((onResults zbFrame zbState).phase = .locked ∧
     (pushMed zbState.chestBuf
       (some (shoulderCmOf zbFrame.width zbLsh zbRsh (7 / 100) * CHEST_MULTIPLIER)) 15).2 =
         some (49049 / 1000) ∧
     (onResults zbFrame zbState).meas = some
       { chestCm := 49, shoulderCm := 28, upperWaistCm := none,
         qualityFrames := 12, qualitySpreadCm := 0 } ∧
     (49 : ℝ) ≠ 49049 / 1000) := by
  constructor
  · refine ⟨?_, ?_, ?_, ?_, ?_, z_mainPath, ?_, ?_⟩
    · simp only [zState, z_wN, pushWindow_replicate_shift 12 (3 / 20),
        List.length_replicate]
    · simp only [zState, z_wN, pushWindow_replicate_shift 12 (3 / 20)]
      rw [maxDevOf_replicate' 12 (3 / 20) (by omega)]
      norm_num
    · rw [show shoulderCmOf zFrame.width zLsh zRsh (7 / 100) = 0 from z_shoulderCm,
        show (0 : ℝ) * CHEST_MULTIPLIER = 0 by norm_num]
      simp only [zState, pushMed_replicate 8 15 0 (by omega)]
      rw [spreadOf_replicate (8 + 1) 0 (by omega)]
      norm_num
    · rw [show shoulderCmOf zFrame.width zLsh zRsh (7 / 100) = 0 from z_shoulderCm,
        show (0 : ℝ) * CHEST_MULTIPLIER = 0 by norm_num]
      simp only [zState, pushMed_replicate 8 15 0 (by omega)]
      rfl
    · rw [show shoulderCmOf zFrame.width zLsh zRsh (7 / 100) = 0 from z_shoulderCm]
      simp only [zState, pushMed_replicate 8 15 0 (by omega)]
      rfl
    · rw [z_eval]
      rfl
    · rw [z_eval]
      rfl
  · refine ⟨?_, ?_, ?_, by norm_num⟩
    · rw [zb_eval]
      rfl
    · rw [show shoulderCmOf zbFrame.width zbLsh zbRsh (7 / 100) = 7007 / 250 from zb_shoulderCm,
        show (7007 : ℝ) / 250 * CHEST_MULTIPLIER = 49049 / 1000 by norm_num [CHEST_MULTIPLIER]]
      simp only [zbState, pushMed_replicate 11 15 (49049 / 1000) (by omega)]
    · rw [zb_eval]
      rfl

/-! ### Claim C10 -/

lemma waistInstantOf_none (W c : ℝ) (lm : ℕ → Option Landmark)
    (h : ¬ (visP lm 23 ∧ visP lm 24)) : waistInstantOf W lm c = none := by
  rw [waistInstantOf]
  cases h23 : lm 23 with
  | none => rfl
  | some L =>
      cases h24 : lm 24 with
      | none => rfl
      | some R =>
          show (if visP lm 23 ∧ visP lm 24
            then some (|(L.x - R.x) * W| * c * UPPER_WAIST_FACTOR) else none) = none
          rw [if_neg h]

lemma measureStep_waistBuf (W : ℝ) (lm : ℕ → Option Landmark)
    (Lsh Rsh : Landmark) (s : SessionState) (c : ℝ)
    (hno : ¬ (visP lm 23 ∧ visP lm 24)) :
    (measureStep W lm Lsh Rsh s c).waistBuf = s.waistBuf := by
  simp only [measureStep, waistInstantOf_none W c lm hno, pushMed_none]
  split <;> rfl

lemma processBody_waistBuf (W H : ℝ) (lm : ℕ → Option Landmark)
    (Lsh Rsh hip : Landmark) (s : SessionState)
    (hno : ¬ (visP lm 23 ∧ visP lm 24)) :
    (processBody W H lm Lsh Rsh hip s).waistBuf = s.waistBuf := by
  simp only [processBody]
  split_ifs <;> first | rfl | exact measureStep_waistBuf W lm Lsh Rsh s _ hno

lemma gateAndProcess_waistBuf (W H : ℝ) (lm : ℕ → Option Landmark)
    (s : SessionState) (hno : ¬ (visP lm 23 ∧ visP lm 24)) :
    (gateAndProcess W H lm s).waistBuf = s.waistBuf := by
  simp only [gateAndProcess]
  split
  · rfl
  · split
    · exact processBody_waistBuf _ _ lm _ _ _ s hno
    · rfl

/-- C10: locking does not require a waist median.  (a) A frame on which the
two hip landmarks are not simultaneously visible pushes nothing into the
waist window, whatever the session state.  (b) If such a frame is accepted
and fires the lock, the frozen record's `upperWaistCm` is absent, and the
two-size classifier applied to the locked record (as the results panel does)
returns absent. -/
theorem claim_C10 :
    (∀ (f : Frame) (s : SessionState),
        (∀ lm, f.poseLandmarks = some lm → ¬ (visP lm 23 ∧ visP lm 24)) →
        (onResults f s).waistBuf = s.waistBuf) ∧
    (∀ (f : Frame) (s : SessionState) (lm : ℕ → Option Landmark)
        (Lsh Rsh hip : Landmark) (c : ℝ),
        MainPath f s lm Lsh Rsh hip c →
        ¬ (visP lm 23 ∧ visP lm 24) →
        s.waistBuf = [] →
        (onResults f s).phase = .locked →
        ∃ mRec, (onResults f s).meas = some mRec ∧ mRec.upperWaistCm = none ∧
          recommendTopSize (some mRec.chestCm) mRec.upperWaistCm
            (some mRec.shoulderCm) = none) := by
  constructor
  · intro f s hno
    rw [onResults]
    split
    · rfl
    · split
      · rfl
      · next lm heq => exact gateAndProcess_waistBuf f.width f.height lm s (hno lm heq)
  · intro f s lm Lsh Rsh hip c hmp hno hwb hph
    obtain ⟨h1, h2, h3, h4, h5, h6, h7, h8, h9, h10, h11, h12, h13⟩ := hmp
    rw [onResults_measure f s lm Lsh Rsh hip c
      ⟨h1, h2, h3, h4, h5, h6, h7, h8, h9, h10, h11, h12, h13⟩] at hph ⊢
    simp only [measureStep, waistInstantOf_none f.width c lm hno, pushMed_none]
      at hph ⊢
    split
    · next hC =>
        refine ⟨_, rfl, rfl, ?_⟩
        exact recommendTopSize_of_guard _ _ _ (Or.inr (Or.inl (fun hx => hx)))
    · next hC =>
        rw [if_neg hC] at hph
        have hs : s.phase = Phase.locked := hph
        rw [h10] at hs
        exact absurd hs (by simp)

/-- C10 (witness): the demo session locks on a frame whose right hip is
absent; the frozen record has no `upperWaistCm` and the classifier returns
absent on it. -/
theorem claim_C10_witness :
    ∃ mRec, (onResults demoFrame (demoState 11 "Hold still…")).meas = some mRec ∧
      mRec.upperWaistCm = none ∧
      recommendTopSize (some mRec.chestCm) mRec.upperWaistCm
        (some mRec.shoulderCm) = none := by
  apply claim_C10.2 demoFrame (demoState 11 "Hold still…") demoLm demoLsh demoRsh
    demoHip (7 / 100) (demo_mainPath 11 "Hold still…")
    (fun h => demo_not_vis24 h.2) rfl
  rw [demo_onResults_lock]
  rfl
